import Mathlib

/-!
Shallow embedding of `apps/reverse_proxy_streamlit/port_forwarder.py` and
`apps/reverse_proxy_streamlit/proxy_server.py`.

The embedding models:
* the mapping records read from `port_mappings.json`;
* the `PortForwarder` registry of live `ForwardThread`s keyed by external
  port, with its operations `load_mappings`, `start_forwarding`,
  `stop_forwarding`, `start_all_forwards`, `stop_all_forwards`,
  `reload_mappings`;
* the per-connection relay loop `ConnectionHandler.forward_data_optimized`
  (its inner `forward` copy loop) over an explicit trace of socket events;
* `ConnectionHandler.run`'s try/except/finally structure;
* the `ProxyServer` route table (`load_mappings`), the HTTP dispatch
  (`proxy_handler`) and the `POST /reload` handler (`reload_mappings`).

Bytes are modelled as `Nat`, byte strings as `List Nat`.  File contents are
modelled as `Option (List Mapping)`: `none` stands for a missing (or
unparseable) `port_mappings.json`, `some ms` for a parsed list of records.
-/

/-- One record of `port_mappings.json`.  The `is_active` field is optional in
the JSON (`m.get('is_active', True)` in both engines), hence `Option Bool`:
`none` models a record with no `is_active` key at all. -/
structure Mapping where
  external_port : Nat
  target_server : String
  target_port : Nat
  is_active : Option Bool
  deriving DecidableEq, Repr

/-- `m.get('is_active', True)`: the activity flag defaults to `True` when the
key is absent. -/
def Mapping.isActiveFlag (m : Mapping) : Bool :=
  m.is_active.getD true

namespace PortForwarder

/-- `PortForwarder.load_mappings`: read `port_mappings.json` and keep the
records whose activity flag is on; a missing file (or any exception) yields
the empty list. -/
def load_mappings (file : Option (List Mapping)) : List Mapping :=
  match file with
  | some mappings => mappings.filter (fun m => m.isActiveFlag)
  | none => []

/-- The observable fields of one `ForwardThread`.  `is_active` is the flag the
thread sets to `True` only after `bind`+`listen` succeed in
`ForwardThread.run`, and to `False` when they raise; in the model it is
computed from the `bindOk` environment (whether the OS lets this port bind). -/
structure Forward where
  target_host : String
  target_port : Nat
  is_active : Bool
  deriving DecidableEq, Repr

/-- Lifecycle events observable on the listeners: a listener's accept loop
being torn down (`stop_forwarding` on its port) and one being started
(`start_forwarding` succeeding).  `reload_mappings` leaves a port's sessions
untouched iff its trace has no event for that port. -/
inductive FwdEvent where
  | listenerStopped (port : Nat)
  | listenerStarted (port : Nat)
  deriving DecidableEq, Repr

/-- The mutable state of a `PortForwarder`: `active_forwards` is the dict
`{external_port: ForwardThread}` (an association list with unique keys, in
insertion order), `is_running` the boolean flag. -/
structure State where
  active_forwards : List (Nat × Forward)
  is_running : Bool
  deriving DecidableEq, Repr

/-- The freshly constructed forwarder: empty dict, not running. -/
def State.init : State := ⟨[], false⟩

/-- `external_port in self.active_forwards`. -/
def State.hasPort (s : State) (p : Nat) : Bool :=
  s.active_forwards.any (fun kv => kv.1 == p)

/-- `list(self.active_forwards.keys())`. -/
def State.ports (s : State) : List Nat :=
  s.active_forwards.map Prod.fst

/-- `PortForwarder.start_forwarding`: refuse (returning `False`) when the port
is already forwarded, otherwise spawn a `ForwardThread`, sleep 0.1 s, record
it and return `True`.  The source never consults the thread's bind outcome:
the returned boolean is `True` even when `bindOk external_port = false`
(the thread's `is_active` stays `False` in that case, but only `get_status`
would show it).  Result: new state, returned boolean, lifecycle events. -/
def start_forwarding (bindOk : Nat → Bool) (s : State) (external_port : Nat)
    (target_host : String) (target_port : Nat) :
    State × Bool × List FwdEvent :=
  if s.hasPort external_port then
    (s, false, [])
  else
    ({ s with active_forwards :=
        s.active_forwards ++ [(external_port, ⟨target_host, target_port, bindOk external_port⟩)] },
     true, [.listenerStarted external_port])

/-- `PortForwarder.stop_forwarding`: if the port is live, stop its thread and
delete the dict entry, returning `True`; otherwise return `False`. -/
def stop_forwarding (s : State) (external_port : Nat) :
    State × Bool × List FwdEvent :=
  if s.hasPort external_port then
    ({ s with active_forwards :=
        s.active_forwards.filter (fun kv => !(kv.1 == external_port)) },
     true, [.listenerStopped external_port])
  else
    (s, false, [])

/-- One iteration of the `start_all_forwards` loop body:
`self.start_forwarding(mapping['external_port'], mapping['target_server'],
mapping['target_port'])`, with the lifecycle events accumulated. -/
def startStep (bindOk : Nat → Bool) (acc : State × List FwdEvent) (m : Mapping) :
    State × List FwdEvent :=
  let r1 := start_forwarding bindOk acc.1 m.external_port m.target_server m.target_port
  (r1.1, acc.2 ++ r1.2.2)

/-- `PortForwarder.start_all_forwards`: `start_forwarding` for every record of
`load_mappings()`, then set `is_running = True`. -/
def start_all_forwards (bindOk : Nat → Bool) (file : Option (List Mapping))
    (s : State) : State × List FwdEvent :=
  let r := (load_mappings file).foldl (startStep bindOk) (s, [])
  ({ r.1 with is_running := true }, r.2)

/-- One iteration of the `stop_all_forwards` loop body:
`self.stop_forwarding(external_port)`, with the lifecycle events
accumulated. -/
def stopStep (acc : State × List FwdEvent) (p : Nat) : State × List FwdEvent :=
  let r1 := stop_forwarding acc.1 p
  (r1.1, acc.2 ++ r1.2.2)

/-- `PortForwarder.stop_all_forwards`: `stop_forwarding` for every key of
`list(self.active_forwards.keys())`, then set `is_running = False`. -/
def stop_all_forwards (s : State) : State × List FwdEvent :=
  let r := s.ports.foldl stopStep (s, [])
  ({ r.1 with is_running := false }, r.2)

/-- `PortForwarder.reload_mappings`: stop every live forwarding, then start
everything from the current file — a full stop/start cycle, with no diffing
against the previous snapshot. -/
def reload_mappings (bindOk : Nat → Bool) (file : Option (List Mapping))
    (s : State) : State × List FwdEvent :=
  let r1 := stop_all_forwards s
  let r2 := start_all_forwards bindOk file r1.1
  (r2.1, r1.2 ++ r2.2)

/-- States reachable from a fresh `PortForwarder` through its public
operations. -/
inductive Reachable : State → Prop where
  | init : Reachable State.init
  | startFwd {s} (b : Nat → Bool) (p : Nat) (h : String) (t : Nat) :
      Reachable s → Reachable (start_forwarding b s p h t).1
  | stopFwd {s} (p : Nat) :
      Reachable s → Reachable (stop_forwarding s p).1
  | startAll {s} (b : Nat → Bool) (f : Option (List Mapping)) :
      Reachable s → Reachable (start_all_forwards b f s).1
  | stopAll {s} :
      Reachable s → Reachable (stop_all_forwards s).1
  | reload {s} (b : Nat → Bool) (f : Option (List Mapping)) :
      Reachable s → Reachable (reload_mappings b f s).1

end PortForwarder

namespace ForwardThread

/-- `self.buffer_size = 8192`: the maximum number of bytes one `recv` call of
the copy loop asks for. -/
def buffer_size : Nat := 8192

/-- `self.timeout = 30` (seconds): the timeout handed to
`ConnectionHandler` and used for the target connect and the two joins in
`forward_data_optimized`. -/
def timeout : Nat := 30

end ForwardThread

namespace ConnectionHandler

/-- One iteration's worth of environment behaviour for the inner `forward`
copy loop of `forward_data_optimized`:
* `idle` — `select.select([src], [], [], 1.0)` timed out (a full 1.0 s window
  with no readable data);
* `recv data sendCap` — `src` was readable and `src.recv(buffer_size)`
  returned `data` (`[]` models the zero-length read at EOF).  When the loop
  goes on to call `dst.send(data)`, the kernel accepts `sendCap` bytes of the
  buffer on that call.  `socket.send` transmits between 1 and `len(data)`
  bytes and returns the count; the source discards that count. -/
inductive PollItem where
  | idle
  | recv (data : List Nat) (sendCap : Nat)
  deriving DecidableEq, Repr

/-- The bytes the `forward` copy loop actually hands to the kernel for
delivery to `dst`, given the trace of its socket events: an idle select
window is skipped (`continue`), a zero-length read breaks the loop, and a
chunk is passed to `dst.send`, which accepts `min sendCap data.length` bytes
of it — the loop never retransmits the unaccepted tail because the return
value of `send` is ignored. -/
def forwardLoop : List PollItem → List Nat
  | [] => []
  | .idle :: rest => forwardLoop rest
  | .recv [] _ :: _ => []
  | .recv (b :: bs) cap :: rest => (b :: bs).take cap ++ forwardLoop rest

/-- Specification-side account of the same trace: the bytes the sending end
put on the wire before EOF (every received chunk, whole, in order).  The
claim of round-trip fidelity is `forwardLoop t = sentBytes t`. -/
def sentBytes : List PollItem → List Nat
  | [] => []
  | .idle :: rest => sentBytes rest
  | .recv [] _ :: _ => []
  | .recv (b :: bs) _ :: rest => (b :: bs) ++ sentBytes rest

/-- The socket operations the `forward` copy loop performs, in order.  The
loop body is exactly `select`; `recv`; (`break` on empty) `send` — it never
shuts down or closes either socket, in particular it performs no
write-side-only shutdown of the peer when it sees EOF. -/
inductive SockOp where
  | selectWait
  | recvOp
  | sendOp (accepted : Nat)
  | shutdownWrite
  | closeBoth
  deriving DecidableEq, Repr

/-- Trace of socket operations of the `forward` copy loop on a given event
trace (translated from the loop body: wait on select, then recv, then either
break or send). -/
def forwardOps : List PollItem → List SockOp
  | [] => []
  | .idle :: rest => .selectWait :: forwardOps rest
  | .recv [] _ :: _ => [.selectWait, .recvOp]
  | .recv (b :: bs) cap :: rest =>
      .selectWait :: .recvOp :: .sendOp (min cap (b :: bs).length) :: forwardOps rest

/-- Wall-clock seconds `forward_data_optimized` spends blocked in
`t1.join(timeout=self.timeout); t2.join(timeout=self.timeout)`, when the two
copy-loop threads would on their own run for `life1` and `life2` seconds.
The first join waits `min life1 timeout`; the second thread has already been
running concurrently for that long, so the second join waits
`min (life2 - elapsed) timeout`.  After both joins return, control goes back
to `run`, whose `finally` closes both sockets — bounding every session's
relay phase, idle or not. -/
def forwardDataWaitTime (life1 life2 : Nat) : Nat :=
  let w1 := min life1 ForwardThread.timeout
  w1 + min (life2 - w1) ForwardThread.timeout

/-- Outcome of one `ConnectionHandler.run`, as observable from outside:
whether an exception escaped `run` itself, whether the target socket object
was created, and which sockets the `finally` block closed. -/
structure SessionOutcome where
  escaped : Option String
  targetCreated : Bool
  targetClosed : Bool
  clientClosed : Bool
  deriving DecidableEq, Repr

/-- `ConnectionHandler.run`, abstracted over the three fallible stages of its
`try` block: creating the target socket object, connecting it (with the 30 s
timeout), and the relay phase (`setsockopt` calls plus
`forward_data_optimized`; errors inside the copy loops are caught inside
`forward` itself and never reach here).  The `except Exception` arm catches
any of the three raising; the `finally` block closes `target_socket` when the
variable is not `None`, and always closes `client_socket`. -/
def run (socketCreate : Except String Unit) (connect : Except String Unit)
    (relay : Except String Unit) : SessionOutcome :=
  match socketCreate with
  | .error _ =>
      { escaped := none, targetCreated := false, targetClosed := false, clientClosed := true }
  | .ok _ =>
    match connect with
    | .error _ =>
        { escaped := none, targetCreated := true, targetClosed := true, clientClosed := true }
    | .ok _ =>
      match relay with
      | .error _ =>
          { escaped := none, targetCreated := true, targetClosed := true, clientClosed := true }
      | .ok _ =>
          { escaped := none, targetCreated := true, targetClosed := true, clientClosed := true }

end ConnectionHandler

/-- An HTTP response as built by the aiohttp handlers (`web.Response` /
`web.json_response`): status code, headers, body text. -/
structure HttpResponse where
  status : Nat
  headers : List (String × String)
  body : String
  deriving DecidableEq, Repr

/-- What the upstream leg of one proxied request produced: the relayed
response on success, or the exception text on any connect/timeout/transport
failure. -/
structure UpstreamResponse where
  status : Nat
  headers : List (String × String)
  body : String
  deriving DecidableEq, Repr

/-- The parts of an inbound aiohttp request that `proxy_handler` reads
successfully: path, method, headers and optional body.  The handler also
tries to read `request.port` in its routing loop, but aiohttp's
`web.Request` has no `port` attribute, so that read is not a field here —
it raises `AttributeError` (see `proxy_handler`). -/
structure ProxyRequest where
  path : String
  method : String
  headers : List (String × String)
  body : Option String
  deriving DecidableEq, Repr

namespace ProxyServer

/-- Python-dict insertion `self.routes[external_port] = target_url`: replace
the value when the key exists, otherwise append at the end. -/
def assocSet (routes : List (Nat × String)) (k : Nat) (v : String) :
    List (Nat × String) :=
  if routes.any (fun kv => kv.1 == k) then
    routes.map (fun kv => if kv.1 == k then (k, v) else kv)
  else
    routes ++ [(k, v)]

/-- `ProxyServer.load_mappings`: when the mappings file exists and parses,
rebuild `self.routes` from scratch — one entry per record whose activity
flag is on, mapping `external_port` to `http://target_server:target_port`;
when the file is missing, only a warning is logged and the previous routes
are kept. -/
def load_mappings (file : Option (List Mapping)) (routes : List (Nat × String)) :
    List (Nat × String) :=
  match file with
  | some mappings =>
      mappings.foldl
        (fun rs m =>
          if m.isActiveFlag then
            assocSet rs m.external_port
              ("http://" ++ m.target_server ++ ":" ++ toString m.target_port)
          else rs)
        []
  | none => routes

/-- The exception raised by the routing loop of `proxy_handler`:
`if request.port == port` reads `request.port`, and aiohttp's
`web.Request`/`BaseRequest` has no `port` attribute (the inbound port would
be `request.url.port` or transport info), so the attribute access raises. -/
def requestPortAttributeError : String :=
  "AttributeError: request object has no attribute port"

/-- `ProxyServer.proxy_handler`: the handler first reads path, method and
headers (dropping `Host`) and the optional body — all of which succeed —
then runs the routing loop
`for port, url in self.routes.items(): if request.port == port: ...`.
The loop body evaluates `request.port` on its first iteration, and aiohttp
request objects have no `port` attribute, so with a non-empty route table
the handler raises `AttributeError`; the loop sits outside the `try` block,
so the exception escapes the handler (`Except.error` — aiohttp answers with
its generic 500 Internal Server Error page, not with either structured
response).  Only with an empty route table does the loop body never run:
`target_url` is still `None` and the structured 404 response is returned.
The `_upstream` argument models the `session.request` block
(`Except.error e` would be any connect/timeout/transport failure, answered
by the structured `프록시 오류` 500 response), but that code is unreachable:
no route can ever resolve.  `_headers` is the header dict after
`headers.pop('Host', None)`, computed before the loop and likewise never
consumed. -/
def proxy_handler (routes : List (Nat × String))
    (_upstream : String → String → List (String × String) → Option String →
      Except String UpstreamResponse)
    (req : ProxyRequest) : Except String HttpResponse :=
  let _headers := req.headers.filter (fun kv => !(kv.1 == "Host"))
  match routes with
  | [] =>
      Except.ok { status := 404, headers := [], body := "포트 매핑을 찾을 수 없습니다." }
  | _ :: _ =>
      Except.error requestPortAttributeError

/-- The exception raised by `await self.load_mappings()` in
`ProxyServer.reload_mappings`: `load_mappings` is a plain (non-async)
function returning `None`, and awaiting `None` raises `TypeError`. -/
def awaitNoneTypeError : String :=
  "TypeError: object NoneType cannot be used in await expression"

/-- `ProxyServer.reload_mappings` (the `POST /reload` handler): the call
`self.load_mappings()` runs to completion first and rebuilds `self.routes`,
then the `await` on its `None` return value raises `TypeError`, so control
never reaches the `web.json_response({...})` line.  Result: the routes after
the handler, and either the returned response or the escaping exception
(which aiohttp converts to a 500 Internal Server Error page). -/
def reload_mappings (file : Option (List Mapping)) (routes : List (Nat × String)) :
    List (Nat × String) × Except String HttpResponse :=
  let routes2 := load_mappings file routes
  (routes2, Except.error awaitNoneTypeError)

end ProxyServer

/-! ### Helper lemmas about the forwarder state -/

namespace PortForwarder

theorem hasPort_iff_mem_ports (s : State) (p : Nat) :
    s.hasPort p = true ↔ p ∈ s.ports := by
  simp only [State.hasPort, State.ports, List.any_eq_true, List.mem_map, beq_iff_eq]

theorem hasPort_mk_erase_running (af : List (Nat × Forward)) (r r' : Bool) (p : Nat) :
    State.hasPort ⟨af, r⟩ p = State.hasPort ⟨af, r'⟩ p := rfl

theorem hasPort_start_forwarding (b : Nat → Bool) (s : State) (p : Nat)
    (h : String) (t : Nat) (q : Nat) :
    ((start_forwarding b s p h t).1).hasPort q = (s.hasPort q || p == q) := by
  unfold start_forwarding
  by_cases hp : s.hasPort p
  · by_cases hq : p = q
    · subst hq
      simp [hp]
    · simp [hp, hq]
  · simp only [hp, Bool.false_eq_true, if_false]
    simp [State.hasPort, List.any_append]

theorem ports_start_forwarding (b : Nat → Bool) (s : State) (p : Nat)
    (h : String) (t : Nat) :
    ((start_forwarding b s p h t).1).ports =
      if s.hasPort p then s.ports else s.ports ++ [p] := by
  unfold start_forwarding
  by_cases hp : s.hasPort p <;> simp [hp, State.ports]

theorem ports_nodup_start_forwarding (b : Nat → Bool) (s : State) (p : Nat)
    (h : String) (t : Nat) (hs : s.ports.Nodup) :
    ((start_forwarding b s p h t).1).ports.Nodup := by
  rw [ports_start_forwarding]
  by_cases hp : s.hasPort p
  · simpa [hp]
  · have hmem : p ∉ s.ports := fun hc => hp ((hasPort_iff_mem_ports s p).mpr hc)
    simp [hp, List.nodup_append, hs, hmem]

theorem active_forwards_stop_forwarding (s : State) (p : Nat) :
    ((stop_forwarding s p).1).active_forwards =
      s.active_forwards.filter (fun kv => !(kv.1 == p)) := by
  unfold stop_forwarding
  by_cases hp : s.hasPort p
  · simp [hp]
  · simp only [hp, Bool.false_eq_true, if_false]
    symm
    apply List.filter_eq_self.mpr
    intro kv hkv
    simp only [Bool.not_eq_eq_eq_not, Bool.not_true, beq_eq_false_iff_ne, ne_eq]
    intro hkvp
    apply hp
    rw [hasPort_iff_mem_ports]
    exact hkvp ▸ List.mem_map_of_mem Prod.fst hkv

theorem ports_nodup_stop_forwarding (s : State) (p : Nat) (hs : s.ports.Nodup) :
    ((stop_forwarding s p).1).ports.Nodup := by
  have h : ((stop_forwarding s p).1).ports =
      (s.active_forwards.filter (fun kv => !(kv.1 == p))).map Prod.fst := by
    unfold stop_forwarding
    by_cases hp : s.hasPort p
    · simp [hp, State.ports]
    · simp only [hp, Bool.false_eq_true, if_false]
      rw [show s.active_forwards.filter (fun kv => !(kv.1 == p)) =
        ((stop_forwarding s p).1).active_forwards from (active_forwards_stop_forwarding s p).symm]
      unfold stop_forwarding
      simp [hp, State.ports]
  rw [h]
  exact List.Nodup.sublist ((List.filter_sublist _).map Prod.fst) hs

theorem hasPort_startFold (b : Nat → Bool) (ms : List Mapping) :
    ∀ (acc : State × List FwdEvent) (q : Nat),
    ((ms.foldl (startStep b) acc).1).hasPort q
      = (acc.1.hasPort q || ms.any (fun m => m.external_port == q)) := by
  induction ms with
  | nil => intro acc q; simp
  | cons m ms ih =>
      intro acc q
      rw [List.foldl_cons, ih]
      rw [show ((startStep b acc m).1).hasPort q
        = ((start_forwarding b acc.1 m.external_port m.target_server m.target_port).1).hasPort q
        from rfl]
      rw [hasPort_start_forwarding]
      simp [Bool.or_assoc]

theorem ports_nodup_startFold (b : Nat → Bool) (ms : List Mapping) :
    ∀ acc : State × List FwdEvent,
    acc.1.ports.Nodup → ((ms.foldl (startStep b) acc).1).ports.Nodup := by
  induction ms with
  | nil => intro acc h; simpa
  | cons m ms ih =>
      intro acc h
      rw [List.foldl_cons]
      exact ih _ (ports_nodup_start_forwarding b acc.1 m.external_port m.target_server
        m.target_port h)

theorem hasPort_start_all (b : Nat → Bool) (f : Option (List Mapping)) (s : State) (q : Nat) :
    ((start_all_forwards b f s).1).hasPort q
      = (s.hasPort q || (load_mappings f).any (fun m => m.external_port == q)) :=
  hasPort_startFold b (load_mappings f) (s, []) q

theorem ports_nodup_start_all (b : Nat → Bool) (f : Option (List Mapping)) (s : State)
    (hs : s.ports.Nodup) : ((start_all_forwards b f s).1).ports.Nodup :=
  ports_nodup_startFold b (load_mappings f) (s, []) hs

theorem afStopFold_empty : ∀ (ks : List Nat) (acc : State × List FwdEvent),
    (∀ kv ∈ acc.1.active_forwards, kv.1 ∈ ks) →
    ((ks.foldl stopStep acc).1).active_forwards = [] := by
  intro ks
  induction ks with
  | nil =>
      intro acc h
      rw [List.foldl_nil]
      exact List.eq_nil_iff_forall_not_mem.mpr
        (fun kv hkv => absurd (h kv hkv) (List.not_mem_nil _))
  | cons k ks ih =>
      intro acc h
      rw [List.foldl_cons]
      apply ih
      intro kv hkv
      have hkv' : kv ∈ acc.1.active_forwards.filter (fun kv => !(kv.1 == k)) := by
        rw [← active_forwards_stop_forwarding]
        exact hkv
      obtain ⟨hmem, hpred⟩ := List.mem_filter.mp hkv'
      rcases List.mem_cons.mp (h kv hmem) with h1 | h2
      · exfalso; simp [h1] at hpred
      · exact h2

theorem active_forwards_stop_all (s : State) :
    ((stop_all_forwards s).1).active_forwards = [] :=
  afStopFold_empty s.ports (s, []) (fun _ hkv => List.mem_map_of_mem Prod.fst hkv)

theorem ports_nodup_stopFold : ∀ (ks : List Nat) (acc : State × List FwdEvent),
    acc.1.ports.Nodup → ((ks.foldl stopStep acc).1).ports.Nodup := by
  intro ks
  induction ks with
  | nil => intro acc h; simpa
  | cons k ks ih =>
      intro acc h
      rw [List.foldl_cons]
      exact ih _ (ports_nodup_stop_forwarding acc.1 k h)

theorem ports_nodup_stop_all (s : State) (hs : s.ports.Nodup) :
    ((stop_all_forwards s).1).ports.Nodup :=
  ports_nodup_stopFold s.ports (s, []) hs

theorem hasPort_stop_all (s : State) (q : Nat) :
    ((stop_all_forwards s).1).hasPort q = false := by
  unfold State.hasPort
  rw [active_forwards_stop_all]
  rfl

theorem hasPort_reload (b : Nat → Bool) (f : Option (List Mapping)) (s : State) (q : Nat) :
    ((reload_mappings b f s).1).hasPort q
      = (load_mappings f).any (fun m => m.external_port == q) := by
  show ((start_all_forwards b f (stop_all_forwards s).1).1).hasPort q = _
  rw [hasPort_start_all, hasPort_stop_all]
  simp

theorem ports_nodup_reload (b : Nat → Bool) (f : Option (List Mapping)) (s : State)
    (hs : s.ports.Nodup) : ((reload_mappings b f s).1).ports.Nodup :=
  ports_nodup_start_all b f _ (ports_nodup_stop_all s hs)

theorem reachable_ports_nodup : ∀ s : State, Reachable s → s.ports.Nodup := by
  intro s h
  induction h with
  | init => exact List.nodup_nil
  | startFwd b p hh t _ ih => exact ports_nodup_start_forwarding _ _ _ _ _ ih
  | stopFwd p _ ih => exact ports_nodup_stop_forwarding _ _ ih
  | startAll b f _ ih => exact ports_nodup_start_all _ _ _ ih
  | stopAll _ ih => exact ports_nodup_stop_all _ ih
  | reload b f _ ih => exact ports_nodup_reload _ _ _ ih

end PortForwarder

/-! ### Helper lemmas about the proxy route table -/

namespace ProxyServer

theorem any_key_assocSet (rs : List (Nat × String)) (k : Nat) (v : String) (q : Nat) :
    ((assocSet rs k v).any (fun kv => kv.1 == q))
      = (rs.any (fun kv => kv.1 == q) || k == q) := by
  unfold assocSet
  cases hk : rs.any (fun kv => kv.1 == k) with
  | false => simp [List.any_append]
  | true =>
      simp only [hk, if_true]
      rw [List.any_map, Bool.eq_iff_iff]
      simp only [List.any_eq_true, Function.comp, Bool.or_eq_true, beq_iff_eq]
      constructor
      · rintro ⟨kv, hkv, hfst⟩
        by_cases hkk : kv.1 = k
        · rw [if_pos hkk] at hfst
          exact Or.inr hfst
        · rw [if_neg hkk] at hfst
          exact Or.inl ⟨kv, hkv, hfst⟩
      · rintro (⟨kv, hkv, hfst⟩ | hkq)
        · refine ⟨kv, hkv, ?_⟩
          by_cases hkk : kv.1 = k
          · rw [if_pos hkk]
            exact hkk ▸ hfst
          · rw [if_neg hkk]
            exact hfst
        · obtain ⟨kv, hkv, hkvk⟩ := List.any_eq_true.mp hk
          refine ⟨kv, hkv, ?_⟩
          rw [if_pos (eq_of_beq hkvk)]
          exact hkq

theorem any_key_loadFold (q : Nat) : ∀ (ms : List Mapping) (rs : List (Nat × String)),
    ((ms.foldl
        (fun rs m =>
          if m.isActiveFlag then
            assocSet rs m.external_port
              ("http://" ++ m.target_server ++ ":" ++ toString m.target_port)
          else rs)
        rs).any (fun kv => kv.1 == q))
      = (rs.any (fun kv => kv.1 == q)
          || ms.any (fun m => m.isActiveFlag && m.external_port == q)) := by
  intro ms
  induction ms with
  | nil => intro rs; simp
  | cons m ms ih =>
      intro rs
      rw [List.foldl_cons, ih]
      cases hm : m.isActiveFlag with
      | false => simp [hm]
      | true =>
          simp only [hm, if_true]
          rw [any_key_assocSet]
          simp [hm, Bool.or_assoc]

theorem routeExists_load_mappings (ms : List Mapping) (m : Mapping)
    (hm : m ∈ ms) (ha : m.isActiveFlag = true) (routes : List (Nat × String)) :
    (load_mappings (some ms) routes).any (fun kv => kv.1 == m.external_port) = true := by
  simp only [load_mappings]
  rw [any_key_loadFold]
  simp only [List.any_nil, Bool.false_or, List.any_eq_true]
  exact ⟨m, hm, by simp [ha]⟩

end ProxyServer

theorem mem_forwarder_load_mappings_of_active (ms : List Mapping) (m : Mapping)
    (hm : m ∈ ms) (ha : m.isActiveFlag = true) :
    m ∈ PortForwarder.load_mappings (some ms) := by
  simp only [PortForwarder.load_mappings]
  exact List.mem_filter.mpr ⟨hm, ha⟩

/-! ### Claim theorems -/

/-- Claim C1: the claim says a `reload()` whose snapshot leaves a port's
mapping unchanged must leave that port's listener untouched.  The code's
`PortForwarder.reload_mappings` instead calls `stop_all_forwards()` and then
`start_all_forwards()`: starting from the single unchanged mapping
`9000 -> 127.0.0.1:9100` and reloading the very same snapshot, the lifecycle
trace is exactly a stop of port 9000 followed by a restart of port 9000 —
the unchanged port's accept loop is torn down and re-created on every
reload. -/
theorem c1_reload_stops_and_restarts_unchanged_port :
    (PortForwarder.reload_mappings (fun _ => true)
        (some [⟨9000, "127.0.0.1", 9100, some true⟩])
        ((PortForwarder.start_all_forwards (fun _ => true)
          (some [⟨9000, "127.0.0.1", 9100, some true⟩])
          PortForwarder.State.init).1)).2
      = [PortForwarder.FwdEvent.listenerStopped 9000,
         PortForwarder.FwdEvent.listenerStarted 9000] ∧
    PortForwarder.FwdEvent.listenerStopped 9000 ∈
      (PortForwarder.reload_mappings (fun _ => true)
        (some [⟨9000, "127.0.0.1", 9100, some true⟩])
        ((PortForwarder.start_all_forwards (fun _ => true)
          (some [⟨9000, "127.0.0.1", 9100, some true⟩])
          PortForwarder.State.init).1)).2 := by
  decide

/-- Claim C2: the claim says relayed data is byte-for-byte identical at the
receiving end.  The copy loop calls `dst.send(data)` and discards its return
value; `socket.send` may transmit fewer bytes than given (returning the
count), so when a send call accepts only 2 of the 3 bytes of a chunk the
remaining byte is silently dropped: the sender put `[1, 2, 3]` on the wire
but only `[1, 2]` is handed over for delivery.  `sendall` (or checking the
returned count) would be required for the claimed fidelity. -/
theorem c2_partial_send_drops_bytes :
    ConnectionHandler.sentBytes [ConnectionHandler.PollItem.recv [1, 2, 3] 2,
        ConnectionHandler.PollItem.recv [] 0] = [1, 2, 3] ∧
    ConnectionHandler.forwardLoop [ConnectionHandler.PollItem.recv [1, 2, 3] 2,
        ConnectionHandler.PollItem.recv [] 0] = [1, 2] ∧
    ConnectionHandler.forwardLoop [ConnectionHandler.PollItem.recv [1, 2, 3] 2,
        ConnectionHandler.PollItem.recv [] 0]
      ≠ ConnectionHandler.sentBytes [ConnectionHandler.PollItem.recv [1, 2, 3] 2,
          ConnectionHandler.PollItem.recv [] 0] := by
  decide

/-- Claim C4: the claim says `start()` reports success only after the
listener actually bound and entered the listening state, and reports a bind
failure otherwise.  `PortForwarder.start_forwarding` instead returns `True`
after a fixed `time.sleep(0.1)` without ever consulting the spawned
`ForwardThread`: with an environment in which the bind fails
(`bindOk = fun _ => false`, e.g. the port is already in use), the call still
returns `True` while the recorded thread's `is_active` is `false` — and in
general the returned boolean is independent of the bind outcome. -/
theorem c4_start_reports_success_despite_bind_failure :
    (PortForwarder.start_forwarding (fun _ => false) PortForwarder.State.init
        9000 "10.0.0.1" 9100).2.1 = true ∧
    (PortForwarder.start_forwarding (fun _ => false) PortForwarder.State.init
        9000 "10.0.0.1" 9100).1.active_forwards
      = [(9000, ⟨"10.0.0.1", 9100, false⟩)] ∧
    (∀ (b1 b2 : Nat → Bool) (s : PortForwarder.State) (p : Nat) (h : String) (t : Nat),
      (PortForwarder.start_forwarding b1 s p h t).2.1
        = (PortForwarder.start_forwarding b2 s p h t).2.1) := by
  refine ⟨by decide, by decide, ?_⟩
  intro b1 b2 s p h t
  unfold PortForwarder.start_forwarding
  by_cases hp : s.hasPort p <;> simp [hp]

/-- Claim C7: `ConnectionHandler.run` wraps its whole body in
`try/except Exception/finally`: whatever combination of the three fallible
stages (target-socket creation, connect, relay phase) fails, nothing escapes
`run`, the client socket is always closed by the `finally` block and the
target socket is closed exactly when it was created. -/
theorem c7_run_catches_all_errors_and_closes_both_sockets
    (socketCreate connect relay : Except String Unit) :
    (ConnectionHandler.run socketCreate connect relay).escaped = none ∧
    (ConnectionHandler.run socketCreate connect relay).clientClosed = true ∧
    (ConnectionHandler.run socketCreate connect relay).targetClosed
      = (ConnectionHandler.run socketCreate connect relay).targetCreated := by
  cases socketCreate <;> cases connect <;> cases relay <;> exact ⟨rfl, rfl, rfl⟩

/-- Claim C9: the claim says the `POST /reload` handler recomputes the route
table and returns a JSON body with the active-mapping count and a timestamp.
The handler does recompute the routes (the synchronous `load_mappings()`
call runs to completion first), but it then executes
`await self.load_mappings()` on the `None` that call returned, which raises
`TypeError` — so no `web.json_response` is ever returned (aiohttp surfaces a
500 error page instead). -/
theorem c9_reload_recomputes_routes_but_raises_instead_of_json :
    ProxyServer.reload_mappings
        (some [⟨8501, "192.168.0.10", 3000, some true⟩]) []
      = ([(8501, "http://192.168.0.10:3000")],
         Except.error ProxyServer.awaitNoneTypeError) ∧
    (∀ (file : Option (List Mapping)) (routes : List (Nat × String))
        (resp : HttpResponse),
      (ProxyServer.reload_mappings file routes).2 ≠ Except.ok resp) := by
  refine ⟨rfl, ?_⟩
  intro file routes resp h
  simp [ProxyServer.reload_mappings] at h

/-- Claim C5, counterexample: the claim says that on a zero-length read the
session signals the other loop and closes only the write side of the peer
socket.  On a concrete trace that relays one chunk and then hits EOF, the
copy loop's complete operation trace is select/recv/send, select/recv — it
contains no write-side shutdown (and no close) at all: the loop just breaks
out. -/
theorem c5_no_halfclose_counterexample :
    ConnectionHandler.forwardOps [ConnectionHandler.PollItem.recv [5] 8,
        ConnectionHandler.PollItem.recv [] 0]
      = [ConnectionHandler.SockOp.selectWait, ConnectionHandler.SockOp.recvOp,
         ConnectionHandler.SockOp.sendOp 1, ConnectionHandler.SockOp.selectWait,
         ConnectionHandler.SockOp.recvOp] ∧
    ConnectionHandler.SockOp.shutdownWrite ∉
      ConnectionHandler.forwardOps [ConnectionHandler.PollItem.recv [5] 8,
        ConnectionHandler.PollItem.recv [] 0] := by
  decide

/-- Claim C5 (amended): on a zero-length read the copy loop simply breaks out
of its own loop; it never shuts down the write side of either socket (nor
closes one) and sends no signal to the other loop, on any trace.  The peer
direction is left to run until its own EOF/error or the session joins time
out, after which `ConnectionHandler.run`'s cleanup fully closes both sockets
(the client socket always, the target socket whenever it was created). -/
theorem c5_eof_breaks_loop_without_halfclose :
    (∀ trace : List ConnectionHandler.PollItem,
      ConnectionHandler.SockOp.shutdownWrite ∉ ConnectionHandler.forwardOps trace ∧
      ConnectionHandler.SockOp.closeBoth ∉ ConnectionHandler.forwardOps trace) ∧
    (∀ socketCreate connect relay : Except String Unit,
      (ConnectionHandler.run socketCreate connect relay).clientClosed = true ∧
      (ConnectionHandler.run socketCreate connect relay).targetClosed
        = (ConnectionHandler.run socketCreate connect relay).targetCreated) := by
  constructor
  · intro trace
    induction trace with
    | nil => exact ⟨List.not_mem_nil _, List.not_mem_nil _⟩
    | cons it rest ih =>
        cases it with
        | idle =>
            simp only [ConnectionHandler.forwardOps]
            exact ⟨by simp [List.mem_cons, ih.1], by simp [List.mem_cons, ih.2]⟩
        | recv d cap =>
            cases d with
            | nil =>
                simp only [ConnectionHandler.forwardOps]
                exact ⟨by decide, by decide⟩
            | cons b bs =>
                simp only [ConnectionHandler.forwardOps]
                exact ⟨by simp [List.mem_cons, ih.1], by simp [List.mem_cons, ih.2]⟩
  · intro socketCreate connect relay
    cases socketCreate <;> cases connect <;> cases relay <;> exact ⟨rfl, rfl⟩

/-- Claim C8, counterexample: the claim says a copy-loop read that produces
no data within the 30 s idle timeout terminates the session.  On a trace
with 31 consecutive empty 1.0 s select windows (31 s > `timeout` = 30 s of
idleness) followed by a data chunk, the loop still relays the chunk — an
idle window never terminates anything, because `if not ready: continue`
just goes round the loop again. -/
theorem c8_idle_timeout_counterexample :
    ForwardThread.timeout < 31 ∧
    ConnectionHandler.forwardLoop
        (List.replicate 31 ConnectionHandler.PollItem.idle
          ++ [ConnectionHandler.PollItem.recv [7] 8,
              ConnectionHandler.PollItem.recv [] 0])
      = [7] := by
  decide

/-- Claim C8 (amended): the copy loop ignores idle select windows entirely —
any number of them is skipped with no effect on what is relayed, so the loop
itself terminates only on EOF or error, not on idleness.  The bounded
session lifetime comes from `forward_data_optimized` instead: its two
sequential `join(timeout=30)` calls block for at most `2 * timeout` seconds
in total (regardless of whether the loops are idle or actively relaying),
after which control returns to `run`, whose cleanup closes both sockets. -/
theorem c8_idle_never_ends_loop_and_joins_bound_session :
    (∀ (k : Nat) (rest : List ConnectionHandler.PollItem),
      ConnectionHandler.forwardLoop
          (List.replicate k ConnectionHandler.PollItem.idle ++ rest)
        = ConnectionHandler.forwardLoop rest) ∧
    (∀ life1 life2 : Nat,
      ConnectionHandler.forwardDataWaitTime life1 life2
        ≤ 2 * ForwardThread.timeout) := by
  constructor
  · intro k rest
    induction k with
    | zero => rfl
    | succ n ih =>
        simpa [List.replicate_succ, ConnectionHandler.forwardLoop] using ih
  · intro life1 life2
    simp only [ConnectionHandler.forwardDataWaitTime, ForwardThread.timeout]
    omega

/-- Claim C3: the claim says a request on an unrouted port gets a
structured 404, a routed request whose upstream fails gets a structured
5xx, and the two are distinguishable.  The routing loop of
`ProxyServer.proxy_handler` reads `request.port`, an attribute aiohttp
request objects do not have, and that read sits outside the `try` block:
with any non-empty route table (here `8501 -> http://127.0.0.1:3000`, a GET
on `/x`) the handler raises `AttributeError` on the loop's first iteration
and aiohttp answers with its generic 500 page — in general every request
under a non-empty table raises, the structured 404 is reachable only when
the route table is empty, and the structured upstream-unavailable 500 is
never reachable, so the claimed error-path distinction does not exist in
the code. -/
theorem c3_routing_loop_attribute_error_collapses_error_paths :
    ProxyServer.proxy_handler [(8501, "http://127.0.0.1:3000")]
        (fun _ _ _ _ => Except.error "Cannot connect to host")
        ⟨"/x", "GET", [], none⟩
      = Except.error ProxyServer.requestPortAttributeError ∧
    (∀ (r : Nat × String) (routes : List (Nat × String))
        (upstream : String → String → List (String × String) → Option String →
          Except String UpstreamResponse)
        (req : ProxyRequest),
      ProxyServer.proxy_handler (r :: routes) upstream req
        = Except.error ProxyServer.requestPortAttributeError) ∧
    (∀ (upstream : String → String → List (String × String) → Option String →
          Except String UpstreamResponse)
        (req : ProxyRequest),
      ProxyServer.proxy_handler [] upstream req
        = Except.ok { status := 404, headers := [],
                      body := "포트 매핑을 찾을 수 없습니다." }) :=
  ⟨rfl, fun _ _ _ _ => rfl, fun _ _ => rfl⟩

/-- Claim C6, counterexample: the claim says that after `start_all` the set
of live listener ports is a deterministic function of the last loaded
active-mapping snapshot.  Two reachable runs whose last snapshot is the same
(`{9002 -> b:92}`) end with different live port sets: started from a fresh
forwarder the set is `[9002]`, but started after an earlier
`start_all_forwards` with snapshot `{9001 -> a:91}` the stale listener on
9001 survives (nothing removes listeners whose port is absent from the new
snapshot), giving `[9001, 9002]`. -/
theorem c6_start_all_not_function_of_snapshot :
    PortForwarder.Reachable
      ((PortForwarder.start_all_forwards (fun _ => true)
        (some [⟨9001, "a", 91, some true⟩]) PortForwarder.State.init).1) ∧
    ((PortForwarder.start_all_forwards (fun _ => true)
        (some [⟨9002, "b", 92, some true⟩]) PortForwarder.State.init).1).ports ≠
    ((PortForwarder.start_all_forwards (fun _ => true)
        (some [⟨9002, "b", 92, some true⟩])
        ((PortForwarder.start_all_forwards (fun _ => true)
          (some [⟨9001, "a", 91, some true⟩]) PortForwarder.State.init).1)).1).ports :=
  ⟨PortForwarder.Reachable.startAll _ _ PortForwarder.Reachable.init, by decide⟩

/-- Claim C6 (amended): in every reachable state of the forwarder at most
one live listener exists per external port (the live-port list has no
duplicates), starting a port already being forwarded fails and leaves the
whole state — and its live set — unchanged, and after `reload_mappings` the
set of live listener ports is exactly the set of external ports of the
active mappings in the snapshot (so `reload` is a deterministic function of
the snapshot; after a bare `start_all_forwards` the result additionally
keeps whatever ports were already live). -/
theorem c6_listener_set_invariants :
    (∀ s : PortForwarder.State, PortForwarder.Reachable s → s.ports.Nodup) ∧
    (∀ (b : Nat → Bool) (s : PortForwarder.State) (p : Nat) (h : String) (t : Nat),
      s.hasPort p = true →
      PortForwarder.start_forwarding b s p h t = (s, false, [])) ∧
    (∀ (b : Nat → Bool) (f : Option (List Mapping)) (s : PortForwarder.State) (q : Nat),
      ((PortForwarder.reload_mappings b f s).1).hasPort q
        = (PortForwarder.load_mappings f).any (fun m => m.external_port == q)) := by
  refine ⟨PortForwarder.reachable_ports_nodup, ?_, PortForwarder.hasPort_reload⟩
  intro b s p h t hp
  unfold PortForwarder.start_forwarding
  simp [hp]

/-- Claim C6, witness: the invariants instantiated at concrete states — the
fresh forwarder's live list has no duplicates; a duplicate start of port
9000 on a state already forwarding 9000 returns `False` and changes
nothing; a reload from the fresh forwarder with no mappings file leaves
port 9000 dead, matching the empty snapshot. -/
theorem c6_listener_set_invariants_witness :
    PortForwarder.State.init.ports.Nodup ∧
    ((⟨[(9000, ⟨"127.0.0.1", 9100, true⟩)], true⟩ : PortForwarder.State).hasPort 9000 = true ∧
      PortForwarder.start_forwarding (fun _ => true)
          ⟨[(9000, ⟨"127.0.0.1", 9100, true⟩)], true⟩ 9000 "127.0.0.1" 9100
        = (⟨[(9000, ⟨"127.0.0.1", 9100, true⟩)], true⟩, false, [])) ∧
    ((PortForwarder.reload_mappings (fun _ => true) none PortForwarder.State.init).1).hasPort 9000
      = (PortForwarder.load_mappings none).any (fun m => m.external_port == 9000) :=
  ⟨c6_listener_set_invariants.1 _ PortForwarder.Reachable.init,
   ⟨by decide,
    c6_listener_set_invariants.2.1 (fun _ => true)
      ⟨[(9000, ⟨"127.0.0.1", 9100, true⟩)], true⟩ 9000 "127.0.0.1" 9100 (by decide)⟩,
   c6_listener_set_invariants.2.2 (fun _ => true) none PortForwarder.State.init 9000⟩

/-- Claim C10: a mapping record whose `is_active` key is absent is treated
as active by both engines — the forwarder's `load_mappings` includes it in
the list of mappings to forward, and the proxy's `load_mappings` creates a
route for its external port — because both read the flag with
`m.get('is_active', True)`. -/
theorem c10_missing_is_active_treated_as_active
    (ms : List Mapping) (m : Mapping) (routes : List (Nat × String))
    (hnone : m.is_active = none) (hm : m ∈ ms) :
    m ∈ PortForwarder.load_mappings (some ms) ∧
    (ProxyServer.load_mappings (some ms) routes).any
        (fun kv => kv.1 == m.external_port) = true := by
  have ha : m.isActiveFlag = true := by
    rw [Mapping.isActiveFlag, hnone]
    rfl
  exact ⟨mem_forwarder_load_mappings_of_active ms m hm ha,
    ProxyServer.routeExists_load_mappings ms m hm ha routes⟩

/-- Claim C10, witness: the record `8501 -> app:3000` with no `is_active`
key is kept by the forwarder's load and gets a proxy route. -/
theorem c10_missing_is_active_treated_as_active_witness :
    (⟨8501, "app", 3000, none⟩ : Mapping).is_active = none ∧
    (⟨8501, "app", 3000, none⟩ : Mapping) ∈ [(⟨8501, "app", 3000, none⟩ : Mapping)] ∧
    ((⟨8501, "app", 3000, none⟩ : Mapping) ∈
        PortForwarder.load_mappings (some [⟨8501, "app", 3000, none⟩]) ∧
      (ProxyServer.load_mappings (some [⟨8501, "app", 3000, none⟩]) []).any
          (fun kv => kv.1 == (⟨8501, "app", 3000, none⟩ : Mapping).external_port) = true) :=
  ⟨rfl, by decide,
   c10_missing_is_active_treated_as_active [⟨8501, "app", 3000, none⟩]
     ⟨8501, "app", 3000, none⟩ [] rfl (by decide)⟩
